import Mathlib

/-!
Verification of the contract-review core: the score aggregator
(`LLMClient.calculate_risk_score`), the rule engine
(`ComplianceChecker.check_compliance`), the vector index
(`VectorStore.add_documents` / `similarity_search` / `load`), and the
pipeline stages of `ContractReviewAgent` (`_identify_risks`,
`_generate_summary`, `analyze_contract_stream`).

Python exceptions are modelled explicitly: a function that can raise
returns `Except PyError _` when it mutates nothing before raising, and
`State × Option PyError` when mutations made before the raise must stay
visible (Python leaves partial mutations in place when an exception
escapes).  Machine floats from the embedding provider are modelled as
exact rationals; no claim here depends on rounding.
-/

namespace ContractReview

/-- Exceptions that the modelled Python code can raise. -/
inductive PyError where
  | indexError
  | typeError
  | assertionError
  | valueError
  | fileNotFoundError
  | unpicklingError
  | runtimeError
deriving DecidableEq, Repr

/-- Python substring containment: `needle in haystack` over strings,
i.e. the characters of `needle` occur contiguously in `haystack`. -/
def strIn (needle haystack : String) : Bool :=
  decide (needle.data <:+: haystack.data)

/-- Python slice `s[:n]` on a string (by code point, as in CPython). -/
def pyTake (n : Nat) (s : String) : String :=
  ⟨s.data.take n⟩

/-- A risk dict `{clause, issue, severity}` as built by
`ComplianceChecker.identify_risks` and `ContractReviewAgent._identify_risks`.
Severity is a free-form string in the source. -/
structure RiskItem where
  clause : String
  issue : String
  severity : String
deriving DecidableEq, Repr

/-- Number of risks carrying the given severity string
(`len([r for r in risks if r['severity'] == s])`). -/
def countSeverity (s : String) (risks : List RiskItem) : Nat :=
  (risks.filter (fun r => r.severity == s)).length

/-- `risk_count` of `LLMClient.calculate_risk_score`:
`3 * #high + 2 * #medium`. -/
def riskWeight (risks : List RiskItem) : Nat :=
  3 * countSeverity "high" risks + 2 * countSeverity "medium" risks

/-- `compliance_issues` of `LLMClient.calculate_risk_score`: the number of
compliance strings containing the marker `缺少` ("missing"). -/
def complianceIssues (compliance : List String) : Nat :=
  (compliance.filter (fun c => strIn "缺少" c)).length

/-- `LLMClient.calculate_risk_score`:
`penalty = min(risk_count + compliance_issues * 2, 8)`;
`return max(10 - penalty, 1)`. -/
def calculate_risk_score (risks : List RiskItem) (compliance : List String) : Int :=
  let risk_count : Int := riskWeight risks
  let compliance_issues : Int := complianceIssues compliance
  let base_score : Int := 10
  let penalty : Int := min (risk_count + compliance_issues * 2) 8
  max (base_score - penalty) 1

/-- The closed-form score of the specification, as a function of the
count of high risks, of medium risks and of missing-compliance entries:
`max(10 - min(3*high + 2*medium + 2*missing, 8), 1)`. -/
def specScore (high medium missing : Nat) : Int :=
  max (10 - min (3 * (high : Int) + 2 * medium + 2 * missing) 8) 1

/-- A compliance rule `{name, keywords, required}` from the rule set that
drives `ComplianceChecker.check_compliance`. -/
structure ComplianceRule where
  name : String
  keywords : List String
  required : Bool
deriving DecidableEq, Repr

/-- `ComplianceChecker.check_compliance`: per rule, `found` is whether any
keyword occurs in the text; a required rule appends `"<name>完整"` when
found and `"缺少<name>"` when not; rules that are not required append
nothing.  The loop appends in rule order. -/
def check_compliance (rules : List ComplianceRule) (text : String) : List String :=
  match rules with
  | [] => []
  | check :: rest =>
    let found := check.keywords.any (fun keyword => strIn keyword text)
    (if check.required && found then [check.name ++ "完整"]
     else if check.required && !found then ["缺少" ++ check.name]
     else []) ++ check_compliance rest text

/-- The specification's rendering of `check_compliance`: keep exactly the
required rules, in order; emit the present-marker string when some keyword
matches and the missing-marker string otherwise. -/
def spec_check_compliance (rules : List ComplianceRule) (text : String) : List String :=
  (rules.filter (fun r => r.required)).map (fun r =>
    if r.keywords.any (fun keyword => strIn keyword text) then r.name ++ "完整"
    else "缺少" ++ r.name)

/-- Chunk metadata: a string-keyed dict, as stored in `VectorStore.metadata`. -/
def Meta : Type := List (String × String)

instance : DecidableEq Meta := by
  unfold Meta; infer_instance

instance : Repr Meta := by
  unfold Meta; infer_instance

/-- One search hit of `VectorStore.similarity_search`:
`{content, metadata, score}`. -/
structure SearchResult where
  content : String
  metadata : Meta
  score : ℚ
deriving DecidableEq, Repr

/-- The FAISS `IndexFlatIP` object: a fixed dimension and the stored
embedding vectors, in insertion order.  Embedding floats are modelled as
exact rationals. -/
structure FaissIndex where
  dim : Nat
  vecs : List (List ℚ)
deriving DecidableEq, Repr

/-- The mutable state of a `VectorStore`: `self.index` (None until the
first insertion), `self.documents` and `self.metadata`. -/
structure VectorStore where
  index : Option FaissIndex
  documents : List String
  metadata : List Meta
deriving DecidableEq, Repr

/-- A fresh `VectorStore()` before any `add_documents` call. -/
def VectorStore.empty : VectorStore :=
  { index := none, documents := [], metadata := [] }

/-- Inner product of two vectors, the score of `IndexFlatIP`. -/
def dot (a b : List ℚ) : ℚ :=
  (List.zipWith (fun x y => x * y) a b).sum

/-- The score FAISS places next to a padding label `-1` when a query asks
for more neighbours than the index holds (the worst representable score). -/
def faissPadScore : ℚ := -(34028236 * 10 ^ 31)

/-- Insert a labelled score into a list sorted by non-increasing score. -/
def insertByScoreDesc (p : Int × ℚ) : List (Int × ℚ) → List (Int × ℚ)
  | [] => [p]
  | q :: rest => if q.2 ≤ p.2 then p :: q :: rest else q :: insertByScoreDesc p rest

/-- Sort labelled scores by non-increasing score. -/
def sortByScoreDesc (l : List (Int × ℚ)) : List (Int × ℚ) :=
  l.foldr insertByScoreDesc []

/-- `faiss.IndexFlatIP.search` for one query: rank all stored vectors by
inner product with the query, return the best `k` as `(label, score)`
pairs; when the index holds fewer than `k` vectors the result is padded
to length `k` with label `-1` (FAISS's documented behaviour). -/
def faissSearch (idx : FaissIndex) (query : List ℚ) (k : Nat) : List (Int × ℚ) :=
  let scored := (idx.vecs.enum).map (fun p => ((p.1 : Int), dot query p.2))
  let top := (sortByScoreDesc scored).take k
  top ++ List.replicate (k - top.length) (-1, faissPadScore)

/-- Python list subscription `l[i]`: non-negative indices from the front,
negative indices from the back, `IndexError` when out of range. -/
def pyGet {α : Type} (l : List α) (i : Int) : Except PyError α :=
  if h : 0 ≤ i ∧ i.toNat < l.length then .ok (l.get ⟨i.toNat, h.2⟩)
  else if h2 : i < 0 ∧ (i + l.length).toNat < l.length ∧ 0 ≤ i + l.length then
    .ok (l.get ⟨(i + l.length).toNat, h2.2.1⟩)
  else .error .indexError

/-- The result-collection loop of `VectorStore.similarity_search`: for each
`(idx, score)` pair returned by FAISS, `if idx < len(self.documents)`
append `{content: documents[idx], metadata: metadata[idx], score}`.
Subscription errors propagate as exceptions. -/
def searchLoop (docs : List String) (metas : List Meta) :
    List (Int × ℚ) → Except PyError (List SearchResult)
  | [] => .ok []
  | (i, s) :: rest =>
    if i < (docs.length : Int) then do
      let content ← pyGet docs i
      let metadata ← pyGet metas i
      let tail ← searchLoop docs metas rest
      .ok ({ content := content, metadata := metadata, score := s } :: tail)
    else searchLoop docs metas rest

/-- `VectorStore.similarity_search(query, k)`: `[]` when `self.index` is
None, otherwise FAISS search followed by the collection loop.  The query
embedding is supplied directly (the provider call `embed_query` is the
excluded collaborator). -/
def similarity_search (vs : VectorStore) (query : List ℚ) (k : Nat) :
    Except PyError (List SearchResult) :=
  match vs.index with
  | none => .ok []
  | some idx => searchLoop vs.documents vs.metadata (faissSearch idx query k)

/-- `np.array(embeddings).astype('float32')` followed by `.shape[1]`:
fails with `ValueError` on ragged rows, with `IndexError` on an empty
batch (shape `(0,)` has no second axis); otherwise yields the common row
length. -/
def npShape1 (embs : List (List ℚ)) : Except PyError Nat :=
  match embs with
  | [] => .error .indexError
  | v :: rest =>
    if rest.all (fun w => w.length == v.length) then .ok v.length
    else .error .valueError

/-- `VectorStore.add_documents`, modelled from the point where the chunk
list, the per-chunk metadata and the provider-computed embeddings exist
(text splitting and `embed_documents` are the excluded collaborators).
Mirrors the source order: build the float32 array; create
`IndexFlatIP(shape[1])` when `self.index` is None; `self.index.add`
(whose FAISS binding asserts that the batch dimension equals the index
dimension, raising `AssertionError` otherwise — the `DimensionMismatch`
of the design); then extend `self.documents` and `self.metadata`.
Returns the post-call state together with the escaped exception, if any,
since Python keeps mutations made before a raise. -/
def add_documents (vs : VectorStore) (chunks : List String) (metas : List Meta)
    (embs : List (List ℚ)) : VectorStore × Option PyError :=
  match npShape1 embs with
  | .error e => (vs, some e)
  | .ok d =>
    let idx := match vs.index with
      | none => { dim := d, vecs := [] : FaissIndex }
      | some fi => fi
    let vs1 := { vs with index := some idx }
    if d = idx.dim then
      ({ vs1 with
          index := some { idx with vecs := idx.vecs ++ embs },
          documents := vs1.documents ++ chunks,
          metadata := vs1.metadata ++ metas }, none)
    else (vs1, some .assertionError)

/-- What the pickle file of a saved store holds: the `documents` and
`metadata` lists. -/
structure PklData where
  documents : List String
  metadata : List Meta
deriving DecidableEq, Repr

/-- The state of one on-disk file consulted by `VectorStore.load`. -/
inductive FileContent (α : Type) where
  | missing
  | corrupt
  | valid (a : α)
deriving DecidableEq, Repr

/-- The pair of files at a snapshot path: `{path}.faiss` and `{path}.pkl`. -/
structure SnapshotFiles where
  faiss : FileContent FaissIndex
  pkl : FileContent PklData
deriving DecidableEq, Repr

/-- `VectorStore.load(path)`: if `{path}.faiss` does not exist, silently do
nothing; otherwise assign `self.index = faiss.read_index(...)` (raising
`RuntimeError` on a corrupt index file, before any mutation), then open
and unpickle `{path}.pkl` (raising `FileNotFoundError` or
`UnpicklingError` — after `self.index` has already been replaced), then
assign `self.documents` and `self.metadata`.  Returns the post-call state
with the escaped exception, if any. -/
def load (vs : VectorStore) (snap : SnapshotFiles) : VectorStore × Option PyError :=
  match snap.faiss with
  | .missing => (vs, none)
  | .corrupt => (vs, some .runtimeError)
  | .valid fi =>
    let vs1 := { vs with index := some fi }
    match snap.pkl with
    | .missing => (vs1, some .fileNotFoundError)
    | .corrupt => (vs1, some .unpicklingError)
    | .valid data =>
      ({ vs1 with documents := data.documents, metadata := data.metadata }, none)

/-- The `ContractState` TypedDict threaded through the LangGraph pipeline. -/
structure ContractState where
  text : String
  summary : String
  risks : List RiskItem
  compliance : List String
  score : Int
  knowledge_context : List SearchResult
deriving DecidableEq, Repr

/-- The initial state built by the agent before invoking the graph. -/
def initialState (text : String) : ContractState :=
  { text := text, summary := "", risks := [], compliance := [], score := 0,
    knowledge_context := [] }

/-- A Python callable taking string positional arguments: its parameter
list and its body, given the bound arguments. -/
structure PyFunction where
  params : List String
  impl : List String → Except PyError String

/-- Python positional-call semantics: binding a different number of
arguments than the callable's parameter list raises `TypeError`. -/
def callPositional (f : PyFunction) (args : List String) : Except PyError String :=
  if args.length = f.params.length then f.impl args else .error .typeError

/-- `LLMClient.generate_summary` as defined in `src/tools/llm_client.py`:
one parameter `text`; the body builds the prompt `请对以下合同内容生成简要摘要：\n`
followed by `text[:2000]` and returns the content of `llm.invoke(prompt)`.
The chat model itself is the excluded collaborator `invoke`. -/
def generate_summary_fn (invoke : String → Except PyError String) : PyFunction :=
  { params := ["text"],
    impl := fun args =>
      invoke ("请对以下合同内容生成简要摘要：\n" ++ pyTake 2000 (args.getD 0 "")) }

/-- `ContractReviewAgent._generate_summary` (the branch without a logger;
the logger branch performs the same call): join the contents of
`state["knowledge_context"]` with newlines, then call
`self.llm_client.generate_summary(state["text"], knowledge_context)` —
two positional arguments — and store the result in `state["summary"]`.
Returns the post-stage state with the escaped exception, if any. -/
def generate_summary_stage (invoke : String → Except PyError String)
    (state : ContractState) : ContractState × Option PyError :=
  let knowledge_context :=
    String.intercalate "\n" (state.knowledge_context.map (fun k => k.content))
  match callPositional (generate_summary_fn invoke) [state.text, knowledge_context] with
  | .ok summary => ({ state with summary := summary }, none)
  | .error e => (state, some e)

/-- One entry of `KnowledgeBase.get_risk_analysis`'s result:
`{guidance, category, relevance}`. -/
structure RiskGuidance where
  guidance : String
  category : String
  relevance : ℚ
deriving DecidableEq, Repr

/-- The risk dict `ContractReviewAgent._identify_risks` appends for one
knowledge-base analysis entry:
`{clause: "知识库分析", issue: analysis["guidance"][:50] + "...", severity: "medium"}`. -/
def kbRiskItem (analysis : RiskGuidance) : RiskItem :=
  { clause := "知识库分析", issue := pyTake 50 analysis.guidance ++ "...",
    severity := "medium" }

/-- `ContractReviewAgent._identify_risks` (both branches append the same
dicts): start from the rule-engine risks for the text and append one
`kbRiskItem` per knowledge-base analysis entry, in order.  The rule-engine
output and the knowledge-base output are supplied directly. -/
def identify_risks_stage (checkerRisks : List RiskItem)
    (riskAnalysis : List RiskGuidance) : List RiskItem :=
  checkerRisks ++ riskAnalysis.map kbRiskItem

/-- The `type` tag of an event yielded by
`ContractReviewAgent.analyze_contract_stream`. -/
inductive EventKind where
  | step
  | progress
  | error
  | result
deriving DecidableEq, Repr

/-- One dict yielded by the streaming analysis: its `type` tag, its
message, and (for `result` events) the final state payload. -/
structure Event where
  kind : EventKind
  message : String
  payload : Option ContractState := none
deriving DecidableEq, Repr

/-- A pipeline stage as the graph runs it: a name and a state transformer
that may raise.  The six stages call the excluded collaborators, so the
transformer is abstract. -/
def Stage : Type := String × (ContractState → Except PyError ContractState)

/-- The display-name table `node_names` of `analyze_contract_stream`. -/
def displayName (node : String) : String :=
  if node = "parse" then "文档解析"
  else if node = "retrieve_knowledge" then "知识检索"
  else if node = "check_compliance" then "合规性检查"
  else if node = "identify_risks" then "风险识别"
  else if node = "generate_summary" then "生成摘要"
  else if node = "calculate_score" then "风险评分"
  else node

/-- The per-node progress event of the streaming loop, as selected by the
`elif` chain on the node name; nodes outside the chain (such as `parse`)
yield no progress event. -/
def nodeProgressEvents (node : String) (st : ContractState) : List Event :=
  if node = "retrieve_knowledge" then
    [{ kind := .progress,
       message := "检索到" ++ toString st.knowledge_context.length ++ "条相关知识" }]
  else if node = "check_compliance" then
    [{ kind := .progress,
       message := "完成" ++ toString st.compliance.length ++ "项合规性检查" }]
  else if node = "identify_risks" then
    [{ kind := .progress,
       message := "识别到" ++ toString st.risks.length ++ "个风险项，其中"
         ++ toString (countSeverity "high" st.risks) ++ "个高风险" }]
  else if node = "generate_summary" then
    [{ kind := .progress, message := "摘要生成完成" }]
  else if node = "calculate_score" then
    [{ kind := .progress, message := "风险评分: " ++ toString st.score ++ "/10" }]
  else []

/-- The events the streaming loop yields for one graph chunk
`{node_name: node_state}`: the step event, then the node's progress
events. -/
def nodeEvents (node : String) (st : ContractState) : List Event :=
  { kind := .step, message := "正在执行" ++ displayName node ++ "..." }
    :: nodeProgressEvents node st

/-- Run the graph nodes in order from a state, collecting the chunks the
LangGraph stream yields (one per completed node, carrying the node's name
and post-state), the last reached state, and the exception of the first
failing node, if any — which ends the stream without a chunk for that
node. -/
def runNodes : List Stage → ContractState →
    List (String × ContractState) × ContractState × Option PyError
  | [], st => ([], st, none)
  | (name, f) :: rest, st =>
    match f st with
    | .error e => ([], st, some e)
    | .ok st' =>
      let (chunks, last, err) := runNodes rest st'
      ((name, st') :: chunks, last, err)

/-- The `result` event built from the final state after a fully successful
stream (`final_result` present). -/
def resultEvent (st : ContractState) : Event :=
  { kind := .result, message := "", payload := some st }

/-- `ContractReviewAgent.analyze_contract_stream` as an event sequence.
Everything runs inside one `try`: first the step event for document
parsing and the parse itself (`parseResult`; the parser is the excluded
collaborator), then a progress event, then the LangGraph loop yielding
`nodeEvents` per chunk.  A chunk keyed `"__end__"` only sets
`final_result` (whether LangGraph emits it is version-dependent, so it is
the parameter `emitsEnd`); after the loop a `result` event is yielded when
`final_result` was captured and an `error` event otherwise.  Any exception
escaping to the `except` clause yields one final `error` event carrying
the message `分析失败: ...`, after which the generator terminates —
the call itself never raises, which is why the model is total. -/
def analyze_contract_stream (parseResult : Except PyError String)
    (emitsEnd : Bool) (stages : List Stage) : List Event :=
  let parseStep : Event := { kind := .step, message := "正在解析文档..." }
  match parseResult with
  | .error _ => [parseStep, { kind := .error, message := "分析失败: ..." }]
  | .ok text =>
    let parsed : Event :=
      { kind := .progress,
        message := "文档解析完成，共" ++ toString text.length ++ "个字符" }
    let (chunks, last, err) := runNodes stages (initialState text)
    let loopEvents := chunks.flatMap (fun c => nodeEvents c.1 c.2)
    match err with
    | some _ =>
      [parseStep, parsed] ++ loopEvents
        ++ [{ kind := .error, message := "分析失败: ..." }]
    | none =>
      [parseStep, parsed] ++ loopEvents
        ++ (if emitsEnd then [resultEvent last]
            else [{ kind := .error, message := "工作流执行异常，未获得最终结果" }])

/-- Whether a streaming run fails: the parser raises, or some graph node
raises. -/
def streamRunFails (parseResult : Except PyError String)
    (stages : List Stage) : Bool :=
  match parseResult with
  | .error _ => true
  | .ok text => (runNodes stages (initialState text)).2.2.isSome

/-- Number of `error`-tagged events in a sequence. -/
def errorCount (events : List Event) : Nat :=
  (events.filter (fun e => e.kind == .error)).length

/-- A one-document store, as left by a first `add_documents` call that
indexed a single chunk of dimension 2. -/
def oneDocStore : VectorStore :=
  { index := some { dim := 2, vecs := [[1, 0]] },
    documents := ["条款一"],
    metadata := [[("source", "doc_0")]] }

/-- A store holding one indexed document, the prior state for the
snapshot-restore experiment. -/
def priorStore : VectorStore :=
  { index := some { dim := 2, vecs := [[1, 0]] },
    documents := ["旧文档"],
    metadata := [[("source", "old")]] }

/-- The index read from a valid snapshot `.faiss` file. -/
def snapshotIndex : FaissIndex := { dim := 3, vecs := [[1, 1, 1]] }

/-- A snapshot whose `.faiss` file is valid but whose `.pkl` file is
absent. -/
def snapBadPkl : SnapshotFiles := { faiss := .valid snapshotIndex, pkl := .missing }

/-- A pipeline whose first node raises, for exercising the failing
stream. -/
def failingStages : List Stage :=
  [("parse", fun _ => .error .runtimeError)]

end ContractReview

namespace ContractReview

theorem errorCount_append (a b : List Event) :
    errorCount (a ++ b) = errorCount a + errorCount b := by
  simp [errorCount, List.filter_append]

theorem errorCount_nodeEvents (node : String) (st : ContractState) :
    errorCount (nodeEvents node st) = 0 := by
  unfold nodeEvents nodeProgressEvents errorCount
  split_ifs <;> rfl

theorem errorCount_loopEvents (chunks : List (String × ContractState)) :
    errorCount (chunks.flatMap (fun c => nodeEvents c.1 c.2)) = 0 := by
  induction chunks with
  | nil => rfl
  | cons c rest ih =>
    simp only [List.flatMap_cons, errorCount_append, errorCount_nodeEvents, ih]

/-- Claim C2: `calculate_risk_score` equals the specification's closed
form `max(10 - min(3*#high + 2*#medium + 2*#missing, 8), 1)` for every
risk list whose severities lie in `{low, medium, high}` and every list of
compliance strings (a missing entry being one carrying the `缺少`
marker), and appending a low-severity risk never changes the score. -/
theorem calculate_risk_score_spec (risks : List RiskItem) (compliance : List String)
    (hsev : ∀ r ∈ risks,
      r.severity = "low" ∨ r.severity = "medium" ∨ r.severity = "high") :
    calculate_risk_score risks compliance =
      specScore (countSeverity "high" risks) (countSeverity "medium" risks)
        (complianceIssues compliance) ∧
    ∀ r : RiskItem, r.severity = "low" →
      calculate_risk_score (risks ++ [r]) compliance =
        calculate_risk_score risks compliance := by
  constructor
  · unfold calculate_risk_score specScore riskWeight
    push_cast
    omega
  · intro r hr
    unfold calculate_risk_score riskWeight countSeverity
    simp [List.filter_append, hr]

theorem calculate_risk_score_spec_witness :
    (∀ r ∈ [RiskItem.mk "a" "i" "high", RiskItem.mk "b" "j" "low"],
      r.severity = "low" ∨ r.severity = "medium" ∨ r.severity = "high") ∧
    calculate_risk_score [RiskItem.mk "a" "i" "high", RiskItem.mk "b" "j" "low"]
        ["缺少甲", "乙完整"] =
      specScore
        (countSeverity "high" [RiskItem.mk "a" "i" "high", RiskItem.mk "b" "j" "low"])
        (countSeverity "medium" [RiskItem.mk "a" "i" "high", RiskItem.mk "b" "j" "low"])
        (complianceIssues ["缺少甲", "乙完整"]) ∧
    calculate_risk_score
        ([RiskItem.mk "a" "i" "high", RiskItem.mk "b" "j" "low"] ++ [RiskItem.mk "c" "k" "low"])
        ["缺少甲", "乙完整"] =
      calculate_risk_score [RiskItem.mk "a" "i" "high", RiskItem.mk "b" "j" "low"]
        ["缺少甲", "乙完整"] :=
  ⟨by decide,
   (calculate_risk_score_spec _ _ (by decide)).1,
   (calculate_risk_score_spec _ _ (by decide)).2 _ rfl⟩

/-- Claim C8: the score is antitone in the componentwise order on
(high count, medium count, missing-compliance count) and always lies in
`[1, 10]`. -/
theorem calculate_risk_score_antitone_bounded
    (r1 r2 : List RiskItem) (c1 c2 : List String)
    (hh : countSeverity "high" r1 ≤ countSeverity "high" r2)
    (hm : countSeverity "medium" r1 ≤ countSeverity "medium" r2)
    (hg : complianceIssues c1 ≤ complianceIssues c2) :
    calculate_risk_score r2 c2 ≤ calculate_risk_score r1 c1 ∧
    1 ≤ calculate_risk_score r1 c1 ∧ calculate_risk_score r1 c1 ≤ 10 := by
  unfold calculate_risk_score riskWeight
  push_cast
  refine ⟨?_, ?_, ?_⟩ <;> omega

theorem calculate_risk_score_antitone_bounded_witness :
    countSeverity "high" [RiskItem.mk "a" "i" "high"] ≤
      countSeverity "high" [RiskItem.mk "a" "i" "high", RiskItem.mk "b" "j" "high"] ∧
    countSeverity "medium" [RiskItem.mk "a" "i" "high"] ≤
      countSeverity "medium" [RiskItem.mk "a" "i" "high", RiskItem.mk "b" "j" "high"] ∧
    complianceIssues ["乙完整"] ≤ complianceIssues ["缺少甲"] ∧
    (calculate_risk_score [RiskItem.mk "a" "i" "high", RiskItem.mk "b" "j" "high"] ["缺少甲"] ≤
        calculate_risk_score [RiskItem.mk "a" "i" "high"] ["乙完整"] ∧
      1 ≤ calculate_risk_score [RiskItem.mk "a" "i" "high"] ["乙完整"] ∧
      calculate_risk_score [RiskItem.mk "a" "i" "high"] ["乙完整"] ≤ 10) :=
  ⟨by decide, by decide, by decide,
   calculate_risk_score_antitone_bounded _ _ _ _ (by decide) (by decide) (by decide)⟩

/-- Claim C6: `check_compliance` emits, in rule order, exactly one string
per required rule — the `完整` ("present") form when some keyword of the
rule occurs in the text, the `缺少` ("missing") form when none does — and
nothing for rules not marked required, whatever their keywords match. -/
theorem spec_check_compliance_cons (check : ComplianceRule)
    (rules : List ComplianceRule) (text : String) :
    spec_check_compliance (check :: rules) text =
      (if check.required then
        [if check.keywords.any (fun keyword => strIn keyword text) then
          check.name ++ "完整" else "缺少" ++ check.name]
       else []) ++ spec_check_compliance rules text := by
  unfold spec_check_compliance
  rw [List.filter_cons]
  cases hreq : check.required <;> simp [hreq]

theorem check_compliance_spec_eq (rules : List ComplianceRule) (text : String) :
    check_compliance rules text = spec_check_compliance rules text := by
  induction rules with
  | nil => rfl
  | cons check rest ih =>
    rw [spec_check_compliance_cons, ← ih]
    simp only [check_compliance]
    cases hreq : check.required <;>
      cases hf : check.keywords.any (fun keyword => strIn keyword text) <;>
        simp [hreq, hf]

/-- Claim C9: `similarity_search` on an empty index (a store whose FAISS
index was never created) returns the empty list for every query and every
`k`, raising nothing. -/
theorem similarity_search_empty_index (vs : VectorStore) (query : List ℚ) (k : Nat)
    (h : vs.index = none) :
    similarity_search vs query k = .ok [] := by
  unfold similarity_search
  rw [h]

theorem similarity_search_empty_index_witness :
    VectorStore.empty.index = none ∧
    similarity_search VectorStore.empty [1, 2] 5 = .ok [] :=
  ⟨rfl, similarity_search_empty_index _ _ _ rfl⟩

/-- Claim C10: every risk item the `identify_risks` stage appends from
knowledge-base risk analysis carries clause `知识库分析` and severity
`medium`, and the stage's output weighs `2 * (number of analysis entries)`
more than the rule-engine risks alone in the score's `risk_count`,
independently of each entry's category and relevance. -/
theorem identify_risks_stage_kb_items
    (checkerRisks : List RiskItem) (riskAnalysis : List RiskGuidance) :
    ((identify_risks_stage checkerRisks riskAnalysis).drop checkerRisks.length).all
        (fun r => r.clause == "知识库分析" && r.severity == "medium") = true ∧
    riskWeight (identify_risks_stage checkerRisks riskAnalysis) =
      riskWeight checkerRisks + 2 * riskAnalysis.length := by
  constructor
  · simp [identify_risks_stage, List.drop_left, List.all_map, kbRiskItem]
  · unfold identify_risks_stage riskWeight countSeverity
    simp only [List.filter_append, List.length_append]
    have hhigh : (riskAnalysis.map kbRiskItem).filter (fun r => r.severity == "high") = [] := by
      induction riskAnalysis with
      | nil => rfl
      | cons a rest iha => simpa [kbRiskItem] using iha
    have hmed : ((riskAnalysis.map kbRiskItem).filter
        (fun r => r.severity == "medium")).length = riskAnalysis.length := by
      induction riskAnalysis with
      | nil => rfl
      | cons a rest iha => simpa [kbRiskItem] using iha
    rw [hhigh, hmed]
    simp
    ring

/-- Claim C5: on a store with an established index of dimension `D`,
adding a batch whose embeddings have common length `d ≠ D` raises the
dimension assertion and returns the store exactly as it was (index,
documents, metadata and stored vectors untouched); on a store with no
index yet, the batch's common embedding length becomes the index
dimension and the batch is appended. -/
theorem add_documents_dimension (vs : VectorStore) (fi : FaissIndex)
    (chunks : List String) (metas : List Meta) (embs : List (List ℚ)) (d : Nat) :
    (vs.index = some fi → npShape1 embs = .ok d → d ≠ fi.dim →
      add_documents vs chunks metas embs = (vs, some .assertionError)) ∧
    (vs.index = none → npShape1 embs = .ok d →
      add_documents vs chunks metas embs =
        ({ index := some { dim := d, vecs := embs },
           documents := vs.documents ++ chunks,
           metadata := vs.metadata ++ metas }, none)) := by
  constructor
  · intro hidx hshape hne
    unfold add_documents
    rw [hshape, hidx]
    simp only [hne, if_false]
    cases vs
    simp_all
  · intro hidx hshape
    unfold add_documents
    rw [hshape, hidx]
    simp

theorem add_documents_dimension_witness :
    (oneDocStore.index = some { dim := 2, vecs := [[1, 0]] } ∧
      npShape1 [[1, 2, 3]] = .ok 3 ∧ 3 ≠ (2 : Nat) ∧
      add_documents oneDocStore ["新条款"] [[("source", "doc_1")]] [[1, 2, 3]] =
        (oneDocStore, some .assertionError)) ∧
    (VectorStore.empty.index = none ∧
      add_documents VectorStore.empty ["首条款"] [[("source", "doc_0")]] [[4, 5]] =
        ({ index := some { dim := 2, vecs := [[4, 5]] },
           documents := ["首条款"], metadata := [[("source", "doc_0")]] }, none)) :=
  ⟨⟨rfl, rfl, by decide,
    (add_documents_dimension oneDocStore { dim := 2, vecs := [[1, 0]] }
      ["新条款"] [[("source", "doc_1")]] [[1, 2, 3]] 3).1 rfl rfl (by decide)⟩,
   ⟨rfl,
    by
      have h := (add_documents_dimension VectorStore.empty { dim := 2, vecs := [[1, 0]] }
        ["首条款"] [[("source", "doc_0")]] [[4, 5]] 2).2 rfl rfl
      simpa [VectorStore.empty] using h⟩⟩

/-- Claim C1 fails on the code: `ContractReviewAgent._generate_summary`
passes two positional arguments to `LLMClient.generate_summary`, whose
signature accepts only `text`, so the stage raises `TypeError` before the
summarizer is ever consulted — for every summarizer behaviour and every
state, the stage leaves `summary` unset and fails, even when the
summarizer would succeed. -/
theorem generate_summary_stage_always_typeError
    (invoke : String → Except PyError String) (state : ContractState) :
    generate_summary_stage invoke state = (state, some .typeError) := by
  unfold generate_summary_stage callPositional generate_summary_fn
  simp

/-- Claim C3 fails on the code: on a store holding `n = 1` document, a
search with `k = 3` returns 3 results, not 1 — FAISS pads the missing
neighbours with label `-1`, the guard `idx < len(documents)` accepts
`-1`, and Python's negative indexing turns each padding label into a
duplicate of the last stored document. -/
theorem similarity_search_returns_k_not_n :
    oneDocStore.documents.length = 1 ∧ (0 : Nat) < 1 ∧ (1 : Nat) < 3 ∧
    Except.map List.length (similarity_search oneDocStore [1, 0] 3) = .ok 3 ∧
    Except.map (List.map SearchResult.content) (similarity_search oneDocStore [1, 0] 3) =
      .ok ["条款一", "条款一", "条款一"] := by
  refine ⟨rfl, by decide, by decide, ?_, ?_⟩ <;> rfl

/-- Claim C4 fails on the code: restoring from a snapshot whose `.faiss`
file is valid but whose `.pkl` file is absent replaces `self.index` with
the snapshotted index, then raises while opening the pickle, leaving
`documents` and `metadata` at their prior values — the store ends up
partly replaced, which the all-or-nothing claim rules out. -/
theorem load_not_atomic :
    load priorStore snapBadPkl =
      ({ index := some snapshotIndex,
         documents := priorStore.documents,
         metadata := priorStore.metadata }, some .fileNotFoundError) ∧
    some snapshotIndex ≠ priorStore.index := by
  exact ⟨rfl, by decide⟩

/-- Claim C7: whenever a streaming run fails — the parser raises or some
graph node raises — the emitted event sequence contains exactly one
`error`-tagged event, and that event is the last element of the sequence;
the generator converts the exception into this terminal event instead of
raising, so the model of the call is a total function into event lists. -/
theorem analyze_contract_stream_error_terminal
    (parseResult : Except PyError String) (emitsEnd : Bool) (stages : List Stage)
    (h : streamRunFails parseResult stages = true) :
    errorCount (analyze_contract_stream parseResult emitsEnd stages) = 1 ∧
    ((analyze_contract_stream parseResult emitsEnd stages).getLast?).map Event.kind =
      some .error := by
  cases parseResult with
  | error e => exact ⟨rfl, rfl⟩
  | ok text =>
    simp only [streamRunFails] at h
    rcases hrn : runNodes stages (initialState text) with ⟨chunks, last, err⟩
    rw [hrn] at h
    cases err with
    | none => simp at h
    | some e =>
      simp only [analyze_contract_stream, hrn]
      constructor
      · rw [errorCount_append, errorCount_append, errorCount_loopEvents]
        rfl
      · rw [List.getLast?_append_cons]
        rfl

theorem analyze_contract_stream_error_terminal_witness :
    streamRunFails (Except.ok "合同正文") failingStages = true ∧
    (errorCount (analyze_contract_stream (Except.ok "合同正文") false failingStages) = 1 ∧
     ((analyze_contract_stream (Except.ok "合同正文") false failingStages).getLast?).map
        Event.kind = some EventKind.error) :=
  ⟨rfl, analyze_contract_stream_error_terminal _ _ _ rfl⟩

end ContractReview
